import Mathlib

/-!
# Story viewer: page-navigation state machine and data-loading protocol

A shallow embedding of `outputs/viewer/app.js`.

* The single mutable `state` object (app.js:19-23) and the DOM nodes the script
  writes are the fields of `World`; every function of the script is a function
  on `World`.
* A JavaScript statement sequence that can throw is a `Completion`: the world
  at the point where control left the sequence, and the message of the thrown
  error if one was thrown.
* The network is an input: a `fetch` settles to a `BookFetch` / `RunsFetch`.
  The calls the script makes are recorded in `World.requests`.
* JSON bodies are typed by the fields the script reads.  A field is optional
  wherever the script guards or defaults its read; `null` and unparseable
  bodies are kept as separate cases because the script reads properties off
  the parsed value.
-/

namespace Viewer

/-! ## Data read from the two endpoints -/

/-- One entry of `payload.runs` (read at app.js:118-120). -/
structure Run where
  id : String
  title_primary : Option String
  page_count : Int
  deriving DecidableEq, Repr

/-- The `meta` object of a book (read at app.js:66-70, each field defaulted). -/
structure BookMeta where
  title_primary : Option String
  title_secondary : Option String
  primary_language : Option String
  secondary_language : Option String
  deriving DecidableEq, Repr

/-- One element of `book.pages` (read at app.js:73-77). -/
structure Page where
  page_number : Int
  text_primary : Option String
  text_secondary : Option String
  audio_primary_url : Option String
  audio_secondary_url : Option String
  deriving DecidableEq, Repr

/-- A book document.  `meta` is read unguarded (app.js:66), `pages` is guarded
(app.js:57, app.js:99) and so may be absent. -/
structure Book where
  meta : BookMeta
  pages : Option (List Page)
  deriving DecidableEq, Repr

/-- The result of `response.json()`: the promise rejects (missing or
unparseable body), or resolves to `null`, or to a value with the fields of `α`. -/
inductive Parsed (α : Type) where
  | unparseable (message : String)
  | null
  | value (a : α)
  deriving DecidableEq, Repr

/-- The body of a failed book response as read at app.js:91-92: only its
`error` field is looked at. -/
structure ErrorPayload where
  error : Option String
  deriving DecidableEq, Repr

/-- The body of the run listing as read at app.js:136. -/
structure RunsPayload where
  runs : Option (List Run)
  deriving DecidableEq, Repr

/-- How `fetch("/api/book?run=...")` settles: it rejects (transport error), or
resolves with `response.ok` false and a status, or resolves with
`response.ok` true. -/
inductive BookFetch where
  | rejected (message : String)
  | notOk (status : Nat) (payload : Parsed ErrorPayload)
  | ok (body : Parsed Book)
  deriving DecidableEq, Repr

/-- How `fetch("/api/runs")` settles. -/
inductive RunsFetch where
  | rejected (message : String)
  | notOk (status : Nat)
  | ok (body : Parsed RunsPayload)
  deriving DecidableEq, Repr

/-! ## State, DOM and world -/

/-- The `state` object, app.js:19-23. -/
structure ViewerState where
  runs : List Run
  book : Option Book
  pageIndex : Int
  deriving DecidableEq, Repr

/-- The value of `state` when the script starts (app.js:19-23). -/
def initialState : ViewerState :=
  { runs := [], book := none, pageIndex := 0 }

/-- An `option` element appended by `fillRunOptions`. -/
structure RunOption where
  value : String
  textContent : String
  deriving DecidableEq, Repr

/-- The elements `renderAudio` creates. -/
inductive AudioNode where
  | p (className : String) (textContent : String)
  | audio (controls : Bool) (preload : String) (src : String)
  deriving DecidableEq, Repr

/-- The DOM properties the script writes (app.js:1-17). -/
structure Dom where
  statusText : String
  bookMetaHidden : Bool
  pageViewHidden : Bool
  runOptions : List RunOption
  runValue : String
  bookTitle : String
  bookSubtitle : String
  bookLang : String
  pageIndicator : String
  pageTitle : String
  textPrimary : String
  textSecondary : String
  audioPrimaryWrap : List AudioNode
  audioSecondaryWrap : List AudioNode
  prevDisabled : Bool
  nextDisabled : Bool
  deriving DecidableEq, Repr

/-- A call to `fetch`. `book runId` stands for the URL
`/api/book?run=<encodeURIComponent(runId)>`. -/
inductive Request where
  | runs
  | book (runId : String)
  deriving DecidableEq, Repr

/-- Everything the script reads or writes. `requests` and `console` only grow. -/
structure World where
  state : ViewerState
  dom : Dom
  requests : List Request
  console : List (String × String)
  deriving DecidableEq, Repr

/-- The outcome of running statements that may throw. -/
structure Completion where
  world : World
  thrown : Option String
  deriving DecidableEq, Repr

/-! ## JavaScript primitives -/

/-- The expression `a || b` for a string-valued property `a` that may be
`undefined` or `null` (both `none`) and a string `b`: the empty string is falsy. -/
def orElse (a : Option String) (b : String) : String :=
  match a with
  | some s => if s ≠ "" then s else b
  | none => b

/-- The message of the `TypeError` raised by reading property `prop` of
`null` or `undefined` (the wording is the engine's; this is V8's). -/
def typeErrorMessage (base : String) (prop : String) : String :=
  "Cannot read properties of " ++ base ++ " (reading \x27" ++ prop ++ "\x27)"

/-- The expression `pages[i]`: `undefined` outside the array. -/
def index (pages : List Page) (i : Int) : Option Page :=
  if i < 0 then none else pages.get? i.toNat

/-- A `try { body } catch (error) { handler }` statement. -/
def tryCatch (body : Completion) (handler : String → World → Completion) : Completion :=
  match body.thrown with
  | none => body
  | some message => handler message body.world

/-! ## The script -/

/-- app.js:25-27. -/
def setStatus (message : String) (w : World) : World :=
  { w with dom := { w.dom with statusText := orElse (some message) "" } }

/-- app.js:29-32. -/
def hideBook (w : World) : World :=
  { w with dom := { w.dom with bookMetaHidden := true, pageViewHidden := true } }

/-- app.js:34-37. -/
def showBook (w : World) : World :=
  { w with dom := { w.dom with bookMetaHidden := false, pageViewHidden := false } }

/-- `console.error(label, error)`. -/
def consoleError (label : String) (message : String) (w : World) : World :=
  { w with console := w.console ++ [(label, message)] }

/-- app.js:39-54, as a function from the children of `target` before the
call to its children after. -/
def renderAudio (_target : List AudioNode) (url : Option String) : List AudioNode :=
  let target : List AudioNode := []
  match url with
  | none => target ++ [AudioNode.p "missing-audio" "오디오 없음"]
  | some u =>
    if u = "" then target ++ [AudioNode.p "missing-audio" "오디오 없음"]
    else target ++ [AudioNode.audio true "none" u]

/-- app.js:56-82. -/
def renderPage (w : World) : Completion :=
  match w.state.book with
  | none => ⟨hideBook w, none⟩
  | some book =>
    match book.pages with
    | none => ⟨hideBook w, none⟩
    | some pages =>
      if pages.length = 0 then ⟨hideBook w, none⟩
      else
        let page := index pages w.state.pageIndex
        let total := pages.length
        let d := w.dom
        let d := { d with bookTitle := orElse book.meta.title_primary "(제목 없음)" }
        let d := { d with bookSubtitle := orElse book.meta.title_secondary "" }
        let lang := orElse book.meta.primary_language "-" ++ " / " ++ orElse book.meta.secondary_language "-"
        let d := { d with bookLang := lang }
        let d := { d with pageIndicator := toString (w.state.pageIndex + 1) ++ " / " ++ toString total }
        match page with
        | none => ⟨{ w with dom := d }, some (typeErrorMessage "undefined" "page_number")⟩
        | some page =>
          let d := { d with pageTitle := "Page " ++ toString page.page_number }
          let d := { d with textPrimary := orElse page.text_primary "" }
          let d := { d with textSecondary := orElse page.text_secondary "" }
          let d := { d with audioPrimaryWrap := renderAudio d.audioPrimaryWrap page.audio_primary_url }
          let d := { d with audioSecondaryWrap := renderAudio d.audioSecondaryWrap page.audio_secondary_url }
          let d := { d with prevDisabled := decide (w.state.pageIndex = 0) }
          let d := { d with nextDisabled := decide (w.state.pageIndex ≥ (total : Int) - 1) }
          ⟨showBook { w with dom := d }, none⟩

/-- app.js:85-89: `loadBook` up to its first `await`; the fetch is issued. -/
def loadBookStart (runId : String) (w : World) : World :=
  let w := setStatus "불러오는 중..." w
  let w := hideBook w
  { w with requests := w.requests ++ [Request.book runId] }

/-- app.js:89-105: the `try` block of `loadBook` once the fetch has settled. -/
def loadBookTry (r : BookFetch) (w : World) : Completion :=
  match r with
  | BookFetch.rejected message => ⟨w, some message⟩
  | BookFetch.notOk status payload =>
    -- `await response.json().catch(() => ({}))`, then `errorPayload.error || ...`
    match payload with
    | Parsed.unparseable _ => ⟨w, some (orElse none ("HTTP " ++ toString status))⟩
    | Parsed.null => ⟨w, some (typeErrorMessage "null" "error")⟩
    | Parsed.value errorPayload => ⟨w, some (orElse errorPayload.error ("HTTP " ++ toString status))⟩
  | BookFetch.ok body =>
    match body with
    | Parsed.unparseable message => ⟨w, some message⟩
    | Parsed.null =>
      let w := { w with state := { w.state with book := none } }
      let w := { w with state := { w.state with pageIndex := 0 } }
      let w := setStatus "" w
      ⟨w, some (typeErrorMessage "null" "pages")⟩
    | Parsed.value book =>
      let w := { w with state := { w.state with book := some book } }
      let w := { w with state := { w.state with pageIndex := 0 } }
      let w := setStatus "" w
      match book.pages with
      | none => ⟨hideBook (setStatus "페이지 데이터가 없습니다." w), none⟩
      | some pages =>
        if pages.length = 0 then ⟨hideBook (setStatus "페이지 데이터가 없습니다." w), none⟩
        else renderPage w

/-- app.js:106-110: the `catch` block of `loadBook`. -/
def loadBookCatch (message : String) (w : World) : Completion :=
  let w := consoleError "Failed to load book" message w
  let w := setStatus ("불러오기 실패: " ++ message) w
  ⟨hideBook w, none⟩

/-- app.js:88-110: what runs when the fetch of a `loadBook` call settles. -/
def loadBookFinish (r : BookFetch) (w : World) : Completion :=
  tryCatch (loadBookTry r w) loadBookCatch

/-- app.js:84-111: a whole `loadBook(runId)` call whose fetch settles to `r`,
with nothing else running in between. -/
def loadBook (runId : String) (r : BookFetch) (w : World) : Completion :=
  loadBookFinish r (loadBookStart runId w)

/-- app.js:113-123. -/
def fillRunOptions (runs : List Run) (w : World) : World :=
  let w := { w with dom := { w.dom with runOptions := [], runValue := "" } }
  runs.foldl
    (fun w run =>
      let title := orElse run.title_primary run.id
      let option : RunOption :=
        { value := run.id
          textContent := run.id ++ " | " ++ title ++ " (" ++ toString run.page_count ++ "p)" }
      { w with dom := { w.dom with runOptions := w.dom.runOptions ++ [option] } })
    w

/-- The assignment `runSelect.value = v`: the select takes the value when one
of its options carries it, and the empty value otherwise. -/
def setRunValue (v : String) (w : World) : World :=
  { w with dom := { w.dom with runValue := if w.dom.runOptions.any (fun o => o.value == v) then v else "" } }

/-- app.js:126-127 and the call at app.js:130. -/
def loadRunsStart (w : World) : World :=
  let w := setStatus "실행 결과 목록 불러오는 중..." w
  let w := hideBook w
  { w with requests := w.requests ++ [Request.runs] }

/-- app.js:130-147: the `try` block of `loadRuns` once the listing fetch has
settled; `net` tells how the book fetch it may issue settles. -/
def loadRunsTry (r : RunsFetch) (net : String → BookFetch) (w : World) : Completion :=
  match r with
  | RunsFetch.rejected message => ⟨w, some message⟩
  | RunsFetch.notOk status => ⟨w, some ("HTTP " ++ toString status)⟩
  | RunsFetch.ok body =>
    match body with
    | Parsed.unparseable message => ⟨w, some message⟩
    | Parsed.null => ⟨w, some (typeErrorMessage "null" "runs")⟩
    | Parsed.value payload =>
      let w := { w with state := { w.state with runs := payload.runs.getD [] } }
      match w.state.runs with
      | [] =>
        let w := setStatus "표시할 스토리 결과가 없습니다." w
        ⟨{ w with dom := { w.dom with runOptions := [], runValue := "" } }, none⟩
      | first :: _ =>
        let w := fillRunOptions w.state.runs w
        let w := setRunValue first.id w
        let w := setStatus "" w
        loadBook first.id (net first.id) w

/-- app.js:148-152: the `catch` block of `loadRuns`. -/
def loadRunsCatch (message : String) (w : World) : Completion :=
  let w := consoleError "Failed to load runs" message w
  let w := setStatus ("목록 로딩 실패: " ++ message) w
  ⟨hideBook w, none⟩

/-- app.js:125-153: a whole `loadRuns()` call. -/
def loadRuns (r : RunsFetch) (net : String → BookFetch) (w : World) : Completion :=
  tryCatch (loadRunsTry r net (loadRunsStart w)) loadRunsCatch

/-- app.js:155-161: the `change` listener of the run selector, up to the first
`await` of the `loadBook` it starts. -/
def onRunChange (runId : String) (w : World) : Completion :=
  if runId = "" then ⟨w, none⟩
  else ⟨loadBookStart runId w, none⟩

/-- app.js:163-169: the `click` listener of the previous button. -/
def onPrevClick (w : World) : Completion :=
  match w.state.book with
  | none => ⟨w, none⟩
  | some _ =>
    if w.state.pageIndex ≤ 0 then ⟨w, none⟩
    else renderPage { w with state := { w.state with pageIndex := w.state.pageIndex - 1 } }

/-- app.js:171-177: the `click` listener of the next button.  Reading
`state.book.pages.length` throws when `pages` is absent. -/
def onNextClick (w : World) : Completion :=
  match w.state.book with
  | none => ⟨w, none⟩
  | some book =>
    match book.pages with
    | none => ⟨w, some (typeErrorMessage "undefined" "length")⟩
    | some pages =>
      if w.state.pageIndex ≥ (pages.length : Int) - 1 then ⟨w, none⟩
      else renderPage { w with state := { w.state with pageIndex := w.state.pageIndex + 1 } }

/-! ## The event loop -/

/-- What the single-threaded event loop can deliver to the script. -/
inductive Event where
  | runsLoaded (r : RunsFetch) (net : String → BookFetch)
  | bookLoaded (runId : String) (r : BookFetch)
  | runChanged (runId : String)
  | bookRequested (runId : String)
  | bookResponded (r : BookFetch)
  | prevClicked
  | nextClicked

/-- One turn of the event loop. -/
def handle (e : Event) (w : World) : Completion :=
  match e with
  | Event.runsLoaded r net => loadRuns r net w
  | Event.bookLoaded runId r => loadBook runId r w
  | Event.runChanged runId => onRunChange runId w
  | Event.bookRequested runId => ⟨loadBookStart runId w, none⟩
  | Event.bookResponded r => loadBookFinish r w
  | Event.prevClicked => onPrevClick w
  | Event.nextClicked => onNextClick w

/-- The world after a sequence of events; an error thrown out of a listener
ends that listener only. -/
def run (es : List Event) (w : World) : World :=
  es.foldl (fun w e => (handle e w).world) w

/-! ## Vocabulary of the specification -/

/-- A book load that fails by transport error or by a non-2xx status. -/
def BookFetch.failed : BookFetch → Bool
  | BookFetch.rejected _ => true
  | BookFetch.notOk _ _ => true
  | BookFetch.ok _ => false

/-- A run listing that fails by transport error or by a non-2xx status. -/
def RunsFetch.failed : RunsFetch → Bool
  | RunsFetch.rejected _ => true
  | RunsFetch.notOk _ => true
  | RunsFetch.ok _ => false

/-- The runs a listing delivered, when the listing succeeded: the response was
ok and its body a JSON value, whose absent `runs` counts as the empty list. -/
def RunsFetch.listed : RunsFetch → Option (List Run)
  | RunsFetch.ok (Parsed.value payload) => some (payload.runs.getD [])
  | _ => none

/-- The book requests the specification expects of one `loadRuns` call: one
for the first listed run, none when nothing was listed. -/
def expectedBookRequests (r : RunsFetch) : List Request :=
  match r.listed with
  | some (first :: _) => [Request.book first.id]
  | _ => []

/-- The cursor lies inside the loaded book whenever that book has pages. -/
def CursorInBounds (s : ViewerState) : Prop :=
  ∀ book pages, s.book = some book → book.pages = some pages → pages ≠ [] →
    0 ≤ s.pageIndex ∧ s.pageIndex ≤ (pages.length : Int) - 1

/-- The `error` member of a failed response's body, when the body parsed to a
JSON value that has one. -/
def Parsed.errorField : Parsed ErrorPayload → Option String
  | Parsed.value payload => payload.error
  | _ => none

/-- Two overlapping `loadBook` calls, for `r1` then `r2`, whose responses
arrive in the opposite order: `r2` gets `b2`, then `r1` gets `b1`. -/
def overlappingLoads (r1 r2 : String) (b1 b2 : Book) : List Event :=
  [Event.bookRequested r1, Event.bookRequested r2,
   Event.bookResponded (BookFetch.ok (Parsed.value b2)),
   Event.bookResponded (BookFetch.ok (Parsed.value b1))]

/-! ## Sample data -/

/-- A page with text only. -/
def samplePage (n : Int) (text : String) : Page :=
  { page_number := n, text_primary := some text, text_secondary := none,
    audio_primary_url := none, audio_secondary_url := none }

/-- A book titled `title` with the given pages. -/
def sampleBook (title : String) (pages : Option (List Page)) : Book :=
  { meta := { title_primary := some title, title_secondary := none,
              primary_language := none, secondary_language := none },
    pages := pages }

/-- Three pages `a`, `b`, `c`. -/
def threePages : List Page :=
  [samplePage 1 "a", samplePage 2 "b", samplePage 3 "c"]

/-- A document before the script has written to it. -/
def blankDom : Dom :=
  { statusText := "", bookMetaHidden := true, pageViewHidden := true,
    runOptions := [], runValue := "", bookTitle := "", bookSubtitle := "",
    bookLang := "", pageIndicator := "", pageTitle := "", textPrimary := "",
    textSecondary := "", audioPrimaryWrap := [], audioSecondaryWrap := [],
    prevDisabled := false, nextDisabled := false }

/-- A one-page book titled `title`. -/
def onePageBook (title : String) : Book :=
  sampleBook title (some [samplePage 1 title])

/-- The world when the script starts. -/
def startWorld : World :=
  { state := initialState, dom := blankDom, requests := [], console := [] }

/-- A world showing `book` at cursor `i`. -/
def worldAt (book : Book) (i : Int) : World :=
  { startWorld with state := { runs := [], book := some book, pageIndex := i } }

/-! ## The scenarios of the specification, evaluated -/

/-- A listing with the single run `r1`, whose book has three pages: the
indicator reads "1 / 3", the title is "T", previous is disabled and next is
enabled. -/
theorem scenario_first_run :
    (loadRuns (RunsFetch.ok (Parsed.value ⟨some [⟨"r1", some "T", 3⟩]⟩))
      (fun _ => BookFetch.ok (Parsed.value (sampleBook "T" (some threePages)))) startWorld).world.dom.pageIndicator
      = "1 / 3" ∧
    (loadRuns (RunsFetch.ok (Parsed.value ⟨some [⟨"r1", some "T", 3⟩]⟩))
      (fun _ => BookFetch.ok (Parsed.value (sampleBook "T" (some threePages)))) startWorld).world.dom.bookTitle
      = "T" ∧
    (loadRuns (RunsFetch.ok (Parsed.value ⟨some [⟨"r1", some "T", 3⟩]⟩))
      (fun _ => BookFetch.ok (Parsed.value (sampleBook "T" (some threePages)))) startWorld).world.dom.prevDisabled
      = true ∧
    (loadRuns (RunsFetch.ok (Parsed.value ⟨some [⟨"r1", some "T", 3⟩]⟩))
      (fun _ => BookFetch.ok (Parsed.value (sampleBook "T" (some threePages)))) startWorld).world.dom.nextDisabled
      = false ∧
    (loadRuns (RunsFetch.ok (Parsed.value ⟨some [⟨"r1", some "T", 3⟩]⟩))
      (fun _ => BookFetch.ok (Parsed.value (sampleBook "T" (some threePages)))) startWorld).world.dom.runOptions
      = [⟨"r1", "r1 | T (3p)"⟩] := by
  refine ⟨?_, ?_, ?_, ?_, ?_⟩ <;> decide

/-- Status 500 with body `{error: "boom"}`: the status ends in ": boom" and a
book shown before is hidden. -/
theorem scenario_boom :
    (loadBook "r2" (BookFetch.notOk 500 (Parsed.value ⟨some "boom"⟩))
      (renderPage (worldAt (sampleBook "T" (some threePages)) 1)).world).world.dom.statusText
      = "불러오기 실패: boom" ∧
    (loadBook "r2" (BookFetch.notOk 500 (Parsed.value ⟨some "boom"⟩))
      (renderPage (worldAt (sampleBook "T" (some threePages)) 1)).world).world.dom.pageViewHidden
      = true ∧
    (renderPage (worldAt (sampleBook "T" (some threePages)) 1)).world.dom.pageViewHidden = false := by
  refine ⟨?_, ?_, ?_⟩ <;> decide

/-- A page without `audio_primary_url`: the primary slot holds the placeholder. -/
theorem scenario_no_audio :
    (renderPage (worldAt (sampleBook "T" (some threePages)) 0)).world.dom.audioPrimaryWrap
      = [AudioNode.p "missing-audio" "오디오 없음"] := by
  decide

/-- An empty listing: the "no results" status, no option, no book request. -/
theorem scenario_empty_listing :
    (loadRuns (RunsFetch.ok (Parsed.value ⟨some []⟩)) (fun _ => BookFetch.rejected "") startWorld).world.dom.statusText
      = "표시할 스토리 결과가 없습니다." ∧
    (loadRuns (RunsFetch.ok (Parsed.value ⟨some []⟩)) (fun _ => BookFetch.rejected "") startWorld).world.requests
      = [Request.runs] := by
  refine ⟨?_, ?_⟩ <;> decide

/-! ## Basic facts about rendering -/

theorem orElse_some_empty (m : String) : orElse (some m) "" = m := by
  unfold orElse
  by_cases h : m = ""
  · simp [h]
  · simp [h]

theorem setStatus_eq (m : String) (w : World) :
    setStatus m w = { w with dom := { w.dom with statusText := m } } := by
  unfold setStatus
  rw [orElse_some_empty]

theorem renderPage_state (w : World) : (renderPage w).world.state = w.state := by
  unfold renderPage
  split
  · rfl
  · split
    · rfl
    · split
      · rfl
      · simp only []
        split <;> rfl

theorem index_of_bounds (pages : List Page) (i : Int) (h0 : 0 ≤ i)
    (h1 : i ≤ (pages.length : Int) - 1) : ∃ page, index pages i = some page := by
  unfold index
  have hlt : i.toNat < pages.length := by omega
  simp only [not_lt.mpr h0, if_false]
  exact ⟨pages.get ⟨i.toNat, hlt⟩, List.get?_eq_get hlt⟩

/-- What `renderPage` leaves on the page for a cursor inside the book. -/
theorem renderPage_in_bounds (w : World) (book : Book) (pages : List Page)
    (hb : w.state.book = some book) (hp : book.pages = some pages)
    (h0 : 0 ≤ w.state.pageIndex) (h1 : w.state.pageIndex ≤ (pages.length : Int) - 1) :
    (renderPage w).thrown = none ∧
    (renderPage w).world.dom.bookMetaHidden = false ∧
    (renderPage w).world.dom.pageViewHidden = false ∧
    (renderPage w).world.dom.statusText = w.dom.statusText ∧
    (renderPage w).world.dom.bookTitle = orElse book.meta.title_primary "(제목 없음)" ∧
    (renderPage w).world.dom.pageIndicator
      = toString (w.state.pageIndex + 1) ++ " / " ++ toString pages.length ∧
    (renderPage w).world.dom.prevDisabled = decide (w.state.pageIndex = 0) ∧
    (renderPage w).world.dom.nextDisabled
      = decide (w.state.pageIndex ≥ (pages.length : Int) - 1) ∧
    (renderPage w).world.requests = w.requests := by
  obtain ⟨page, hpage⟩ := index_of_bounds pages w.state.pageIndex h0 h1
  have hne : pages.length ≠ 0 := by omega
  unfold renderPage
  simp only [hb, hp, hne, if_false, hpage, showBook]
  simp

/-! ## Claims -/

/-- C9. `renderAudio` leaves exactly one child in the slot: for a URL that is
present and non-empty, an audio control with `controls` on, `preload` `"none"`
and that URL as `src`; for an absent URL (`undefined`, `null` or `""`), the
"오디오 없음" placeholder; never a control with an empty source. -/
theorem renderAudio_policy (target : List AudioNode) (u : Option String) :
    (renderAudio target u).length = 1 ∧
    (∀ s, u = some s → s ≠ "" →
      renderAudio target u = [AudioNode.audio true "none" s]) ∧
    (u = none ∨ u = some "" →
      renderAudio target u = [AudioNode.p "missing-audio" "오디오 없음"]) ∧
    (∀ c p, AudioNode.audio c p "" ∉ renderAudio target u) := by
  cases u with
  | none => simp [renderAudio]
  | some s =>
    by_cases hs : s = ""
    · subst hs; simp [renderAudio]
    · simp [renderAudio, hs]
      intro h; exact hs h.symm

/-- C3. For a book with `total ≥ 1` pages and a cursor with
`0 ≤ pageIndex ≤ total - 1`, `renderPage` completes, disables the previous
control exactly when `pageIndex = 0` and the next control exactly when
`pageIndex = total - 1`; with a single page both are disabled. -/
theorem renderPage_navigation (w : World) (book : Book) (pages : List Page)
    (hb : w.state.book = some book) (hp : book.pages = some pages)
    (_htotal : 1 ≤ pages.length)
    (h0 : 0 ≤ w.state.pageIndex) (h1 : w.state.pageIndex ≤ (pages.length : Int) - 1) :
    (renderPage w).thrown = none ∧
    ((renderPage w).world.dom.prevDisabled = true ↔ w.state.pageIndex = 0) ∧
    ((renderPage w).world.dom.nextDisabled = true ↔ w.state.pageIndex = (pages.length : Int) - 1) ∧
    (pages.length = 1 →
      (renderPage w).world.dom.prevDisabled = true ∧ (renderPage w).world.dom.nextDisabled = true) := by
  obtain ⟨ht, _, _, _, _, _, hprev, hnext, _⟩ := renderPage_in_bounds w book pages hb hp h0 h1
  refine ⟨ht, ?_, ?_, ?_⟩
  · rw [hprev]; simp
  · rw [hnext]; simp; omega
  · intro h
    rw [hprev, hnext]; simp; omega

/-- C3 at a concrete input: the middle page of a three-page book. -/
theorem renderPage_navigation_witness :
    (renderPage (worldAt (sampleBook "T" (some threePages)) 1)).thrown = none ∧
    (renderPage (worldAt (sampleBook "T" (some threePages)) 1)).world.dom.prevDisabled = false ∧
    (renderPage (worldAt (sampleBook "T" (some threePages)) 1)).world.dom.nextDisabled = false := by
  have h := renderPage_navigation (worldAt (sampleBook "T" (some threePages)) 1)
    (sampleBook "T" (some threePages)) threePages rfl rfl (by decide) (by decide) (by decide)
  refine ⟨h.1, ?_, ?_⟩
  · rfl
  · rfl

/-- The effect of a next click on a book that has a page list. -/
theorem onNextClick_of_pages (w : World) (book : Book) (pages : List Page)
    (hb : w.state.book = some book) (hp : book.pages = some pages) :
    onNextClick w =
      if w.state.pageIndex ≥ (pages.length : Int) - 1 then ⟨w, none⟩
      else renderPage { w with state := { w.state with pageIndex := w.state.pageIndex + 1 } } := by
  unfold onNextClick
  simp only [hb, hp]

/-- The effect of a previous click when a book is loaded. -/
theorem onPrevClick_of_book (w : World) (book : Book) (hb : w.state.book = some book) :
    onPrevClick w =
      if w.state.pageIndex ≤ 0 then ⟨w, none⟩
      else renderPage { w with state := { w.state with pageIndex := w.state.pageIndex - 1 } } := by
  unfold onPrevClick
  simp only [hb]

/-- C4. With a book of `total` pages loaded: from an interior cursor
`0 < i < total - 1`, next-then-previous and previous-then-next both end at `i`;
at a boundary the blocked click changes nothing, so from `i = total - 1` with
`total ≥ 2` next-then-previous ends at `total - 2`. -/
theorem next_prev_inverse (w : World) (book : Book) (pages : List Page)
    (hb : w.state.book = some book) (hp : book.pages = some pages) :
    (0 < w.state.pageIndex → w.state.pageIndex < (pages.length : Int) - 1 →
      (onPrevClick (onNextClick w).world).world.state.pageIndex = w.state.pageIndex ∧
      (onNextClick (onPrevClick w).world).world.state.pageIndex = w.state.pageIndex) ∧
    (w.state.pageIndex = (pages.length : Int) - 1 → onNextClick w = ⟨w, none⟩) ∧
    (w.state.pageIndex = 0 → onPrevClick w = ⟨w, none⟩) ∧
    (w.state.pageIndex = (pages.length : Int) - 1 → 2 ≤ pages.length →
      (onPrevClick (onNextClick w).world).world.state.pageIndex = (pages.length : Int) - 2) := by
  have hnext := onNextClick_of_pages w book pages hb hp
  have hprev := onPrevClick_of_book w book hb
  refine ⟨?_, ?_, ?_, ?_⟩
  · intro h0 h1
    have hn : ¬ (w.state.pageIndex ≥ (pages.length : Int) - 1) := by omega
    have hpv : ¬ (w.state.pageIndex ≤ 0) := by omega
    rw [hnext, hprev, if_neg hn, if_neg hpv]
    constructor
    · rw [onPrevClick_of_book _ book (by rw [renderPage_state]; exact hb)]
      rw [renderPage_state]
      have : ¬ (w.state.pageIndex + 1 ≤ 0) := by omega
      simp only [this, if_false, renderPage_state]
      omega
    · rw [onNextClick_of_pages _ book pages (by rw [renderPage_state]; exact hb) hp]
      rw [renderPage_state]
      have : ¬ (w.state.pageIndex - 1 ≥ (pages.length : Int) - 1) := by omega
      simp only [this, if_false, renderPage_state]
      omega
  · intro h
    rw [hnext, if_pos (by omega)]
  · intro h
    rw [hprev, if_pos (by omega)]
  · intro h h2
    rw [hnext, if_pos (by omega), hprev]
    have : ¬ (w.state.pageIndex ≤ 0) := by omega
    simp only [this, if_false, renderPage_state]
    omega

/-- C4 at a concrete input: the middle page, and the last page, of a
three-page book. -/
theorem next_prev_inverse_witness :
    (onPrevClick (onNextClick (worldAt (sampleBook "T" (some threePages)) 1)).world).world.state.pageIndex = 1 ∧
    (onNextClick (onPrevClick (worldAt (sampleBook "T" (some threePages)) 1)).world).world.state.pageIndex = 1 ∧
    (onPrevClick (onNextClick (worldAt (sampleBook "T" (some threePages)) 2)).world).world.state.pageIndex = 1 :=
  ⟨((next_prev_inverse (worldAt (sampleBook "T" (some threePages)) 1)
      (sampleBook "T" (some threePages)) threePages rfl rfl).1 (by decide) (by decide)).1,
   ((next_prev_inverse (worldAt (sampleBook "T" (some threePages)) 1)
      (sampleBook "T" (some threePages)) threePages rfl rfl).1 (by decide) (by decide)).2,
   (next_prev_inverse (worldAt (sampleBook "T" (some threePages)) 2)
      (sampleBook "T" (some threePages)) threePages rfl rfl).2.2.2 (by decide) (by decide)⟩

/-- The state and page after a `loadBook` call that fetched a document with at
least one page. -/
theorem loadBookFinish_pages (w : World) (book : Book) (pages : List Page)
    (hp : book.pages = some pages) (hN : 1 ≤ pages.length) :
    (loadBookFinish (BookFetch.ok (Parsed.value book)) w).thrown = none ∧
    (loadBookFinish (BookFetch.ok (Parsed.value book)) w).world.state
      = { w.state with book := some book, pageIndex := 0 } ∧
    (loadBookFinish (BookFetch.ok (Parsed.value book)) w).world.dom.pageIndicator
      = "1 / " ++ toString pages.length ∧
    (loadBookFinish (BookFetch.ok (Parsed.value book)) w).world.dom.bookTitle
      = orElse book.meta.title_primary "(제목 없음)" ∧
    (loadBookFinish (BookFetch.ok (Parsed.value book)) w).world.dom.statusText = "" ∧
    (loadBookFinish (BookFetch.ok (Parsed.value book)) w).world.dom.bookMetaHidden = false ∧
    (loadBookFinish (BookFetch.ok (Parsed.value book)) w).world.dom.pageViewHidden = false ∧
    (loadBookFinish (BookFetch.ok (Parsed.value book)) w).world.requests = w.requests := by
  have hne : pages.length ≠ 0 := by omega
  have hr := renderPage_in_bounds
    (setStatus "" { w with state := { w.state with book := some book, pageIndex := 0 } })
    book pages rfl hp (by simp [setStatus]) (by simp [setStatus]; omega)
  have hs := renderPage_state
    (setStatus "" { w with state := { w.state with book := some book, pageIndex := 0 } })
  obtain ⟨h1, h2, h3, h4, h5, h6, _, _, h9⟩ := hr
  have hbody : loadBookTry (BookFetch.ok (Parsed.value book)) w
      = renderPage (setStatus "" { w with state := { w.state with book := some book, pageIndex := 0 } }) := by
    unfold loadBookTry
    simp only [hp, hne, if_false]
  unfold loadBookFinish tryCatch
  rw [hbody]
  simp only [h1]
  refine ⟨trivial, ?_, ?_, h5, ?_, h2, h3, ?_⟩
  · rw [hs]; rfl
  · rw [h6]; rfl
  · rw [h4]; rfl
  · rw [h9]; rfl

/-- C2. Whatever was loaded before and wherever the cursor was, after a
`loadBook` call that fetched a document with `N ≥ 1` pages the state holds
that document with `pageIndex = 0` and the position indicator reads
`"1 / N"`. -/
theorem loadBook_success (w : World) (runId : String) (book : Book) (pages : List Page)
    (hp : book.pages = some pages) (hN : 1 ≤ pages.length) :
    (loadBook runId (BookFetch.ok (Parsed.value book)) w).thrown = none ∧
    (loadBook runId (BookFetch.ok (Parsed.value book)) w).world.state.book = some book ∧
    (loadBook runId (BookFetch.ok (Parsed.value book)) w).world.state.pageIndex = 0 ∧
    (loadBook runId (BookFetch.ok (Parsed.value book)) w).world.dom.pageIndicator
      = "1 / " ++ toString pages.length ∧
    (loadBook runId (BookFetch.ok (Parsed.value book)) w).world.dom.pageViewHidden = false := by
  obtain ⟨h1, h2, h3, _, _, _, h7, _⟩ :=
    loadBookFinish_pages (loadBookStart runId w) book pages hp hN
  unfold loadBook
  refine ⟨h1, ?_, ?_, h3, h7⟩
  · rw [h2]
  · rw [h2]

/-- C2 at a concrete input: a three-page book loaded over a two-page book
shown at its second page. -/
theorem loadBook_success_witness :
    (loadBook "r1" (BookFetch.ok (Parsed.value (sampleBook "T" (some threePages))))
      (worldAt (sampleBook "old" (some [samplePage 1 "x", samplePage 2 "y"])) 1)).world.dom.pageIndicator
      = "1 / 3" :=
  (loadBook_success (worldAt (sampleBook "old" (some [samplePage 1 "x", samplePage 2 "y"])) 1)
    "r1" (sampleBook "T" (some threePages)) threePages rfl (by decide)).2.2.2.1

/-- The `catch` blocks complete normally. -/
theorem loadBookFinish_thrown (r : BookFetch) (w : World) :
    (loadBookFinish r w).thrown = none := by
  unfold loadBookFinish tryCatch
  split
  · assumption
  · rfl

theorem loadBook_thrown (runId : String) (r : BookFetch) (w : World) :
    (loadBook runId r w).thrown = none :=
  loadBookFinish_thrown r (loadBookStart runId w)

theorem loadRuns_thrown (r : RunsFetch) (net : String → BookFetch) (w : World) :
    (loadRuns r net w).thrown = none := by
  unfold loadRuns tryCatch
  split
  · assumption
  · rfl

/-- A failed book fetch throws before the `try` block writes anything. -/
theorem loadBookTry_failed (r : BookFetch) (w : World) (h : r.failed = true) :
    (loadBookTry r w).world = w ∧ (loadBookTry r w).thrown ≠ none := by
  cases r with
  | rejected m => simp [loadBookTry]
  | notOk status payload => cases payload <;> simp [loadBookTry]
  | ok body => simp [BookFetch.failed] at h

/-- C7. A `loadBook` call that fails by transport error or non-2xx status
leaves `state` (so `book` and `pageIndex`) as it was, and so does such a
`loadRuns` call (so `runs`, `book` and `pageIndex`); neither call throws. -/
theorem failed_loads_atomic (w : World) (runId : String) (rb : BookFetch)
    (rr : RunsFetch) (net : String → BookFetch)
    (hb : rb.failed = true) (hr : rr.failed = true) :
    (loadBook runId rb w).world.state = w.state ∧
    (loadBook runId rb w).thrown = none ∧
    (loadRuns rr net w).world.state = w.state ∧
    (loadRuns rr net w).thrown = none := by
  refine ⟨?_, loadBook_thrown _ _ _, ?_, loadRuns_thrown _ _ _⟩
  · obtain ⟨h1, h2⟩ := loadBookTry_failed rb (loadBookStart runId w) hb
    unfold loadBook loadBookFinish tryCatch
    split
    · rename_i hnone; exact absurd hnone h2
    · rw [h1]; rfl
  · cases rr with
    | rejected m => rfl
    | notOk status => rfl
    | ok body => simp [RunsFetch.failed] at hr

/-- C7 at a concrete input: a book shown at its second page, then a book load
answered with status 500 and a listing that cannot be reached. -/
theorem failed_loads_atomic_witness :
    (loadBook "r2" (BookFetch.notOk 500 (Parsed.value ⟨some "boom"⟩))
      (worldAt (sampleBook "T" (some threePages)) 1)).world.state
      = (worldAt (sampleBook "T" (some threePages)) 1).state ∧
    (loadRuns (RunsFetch.rejected "Failed to fetch") (fun _ => BookFetch.rejected "Failed to fetch")
      (worldAt (sampleBook "T" (some threePages)) 1)).world.state
      = (worldAt (sampleBook "T" (some threePages)) 1).state :=
  ⟨(failed_loads_atomic (worldAt (sampleBook "T" (some threePages)) 1) "r2"
      (BookFetch.notOk 500 (Parsed.value ⟨some "boom"⟩)) (RunsFetch.rejected "Failed to fetch")
      (fun _ => BookFetch.rejected "Failed to fetch") rfl rfl).1,
   (failed_loads_atomic (worldAt (sampleBook "T" (some threePages)) 1) "r2"
      (BookFetch.notOk 500 (Parsed.value ⟨some "boom"⟩)) (RunsFetch.rejected "Failed to fetch")
      (fun _ => BookFetch.rejected "Failed to fetch") rfl rfl).2.2.1⟩

/-- Settling a book fetch issues no request. -/
theorem loadBookFinish_requests (r : BookFetch) (w : World) :
    (loadBookFinish r w).world.requests = w.requests := by
  unfold loadBookFinish tryCatch
  cases r with
  | rejected m => simp [loadBookTry, loadBookCatch, hideBook, setStatus, consoleError]
  | notOk status payload =>
    cases payload <;> simp [loadBookTry, loadBookCatch, hideBook, setStatus, consoleError]
  | ok body =>
    cases body with
    | unparseable m => simp [loadBookTry, loadBookCatch, hideBook, setStatus, consoleError]
    | null => simp [loadBookTry, loadBookCatch, hideBook, setStatus, consoleError]
    | value book =>
      cases hp : book.pages with
      | none => simp [loadBookTry, hp, hideBook, setStatus]
      | some pages =>
        by_cases hN : 1 ≤ pages.length
        · have h := loadBookFinish_pages w book pages hp hN
          unfold loadBookFinish tryCatch at h
          exact h.2.2.2.2.2.2.2
        · have h0 : pages.length = 0 := by omega
          simp [loadBookTry, hp, h0, hideBook, setStatus]

/-- Filling the selector touches neither the state nor the request log. -/
theorem fillRunOptions_frame (runs : List Run) (w : World) :
    (fillRunOptions runs w).state = w.state ∧ (fillRunOptions runs w).requests = w.requests := by
  unfold fillRunOptions
  generalize hw0 : ({ w with dom := { w.dom with runOptions := [], runValue := "" } } : World) = w0
  have hs : w0.state = w.state ∧ w0.requests = w.requests := by subst hw0; exact ⟨rfl, rfl⟩
  clear hw0
  induction runs generalizing w0 with
  | nil => exact hs
  | cons run rest ih => exact ih _ hs

/-- C8. One `loadRuns` call fetches the listing and then issues a book request
exactly when the listing succeeded with a non-empty list: a single request, for
the id of the first listed run.  When the listing succeeds with an empty or
absent list, the empty list is stored, the status reads
"표시할 스토리 결과가 없습니다.", the selector has no options, and `/api/book` is
not called. -/
theorem loadRuns_requests (r : RunsFetch) (net : String → BookFetch) (w : World) :
    (loadRuns r net w).world.requests
      = w.requests ++ [Request.runs] ++ expectedBookRequests r ∧
    (r.listed = some [] →
      (loadRuns r net w).world.state.runs = [] ∧
      (loadRuns r net w).world.dom.statusText = "표시할 스토리 결과가 없습니다." ∧
      (loadRuns r net w).world.dom.runOptions = [] ∧
      (loadRuns r net w).world.requests = w.requests ++ [Request.runs]) := by
  cases r with
  | rejected m => exact ⟨by simp [expectedBookRequests, RunsFetch.listed]; rfl, by simp [RunsFetch.listed]⟩
  | notOk status => exact ⟨by simp [expectedBookRequests, RunsFetch.listed]; rfl, by simp [RunsFetch.listed]⟩
  | ok body =>
    cases body with
    | unparseable m => exact ⟨by simp [expectedBookRequests, RunsFetch.listed]; rfl, by simp [RunsFetch.listed]⟩
    | null => exact ⟨by simp [expectedBookRequests, RunsFetch.listed]; rfl, by simp [RunsFetch.listed]⟩
    | value payload =>
      cases hruns : payload.runs.getD [] with
      | nil =>
        have hbody : loadRuns (RunsFetch.ok (Parsed.value payload)) net w
            = ⟨{ (setStatus "표시할 스토리 결과가 없습니다."
                  { loadRunsStart w with state := { (loadRunsStart w).state with runs := [] } }) with
                dom := { (setStatus "표시할 스토리 결과가 없습니다."
                  { loadRunsStart w with state := { (loadRunsStart w).state with runs := [] } }).dom with
                  runOptions := [], runValue := "" } }, none⟩ := by
          unfold loadRuns tryCatch loadRunsTry
          simp only [hruns]
        rw [hbody]
        simp [expectedBookRequests, RunsFetch.listed, hruns, setStatus, loadRunsStart, orElse, hideBook]
      | cons first rest =>
        have hbody : loadRuns (RunsFetch.ok (Parsed.value payload)) net w
            = loadBook first.id (net first.id)
                (setStatus "" (setRunValue first.id (fillRunOptions (first :: rest)
                  { loadRunsStart w with
                    state := { (loadRunsStart w).state with runs := first :: rest } }))) := by
          unfold loadRuns tryCatch loadRunsTry
          simp only [hruns, loadBook_thrown]
        rw [hbody]
        constructor
        · unfold loadBook
          rw [loadBookFinish_requests]
          simp [expectedBookRequests, RunsFetch.listed, hruns, loadBookStart, setStatus,
            setRunValue, hideBook, (fillRunOptions_frame _ _).2, loadRunsStart]
        · simp [RunsFetch.listed, hruns]

/-- Settling a book fetch either resets the cursor to 0 or leaves book and
cursor alone. -/
theorem loadBookFinish_cursor (r : BookFetch) (w : World) :
    (loadBookFinish r w).world.state.pageIndex = 0 ∨
    ((loadBookFinish r w).world.state.book = w.state.book ∧
     (loadBookFinish r w).world.state.pageIndex = w.state.pageIndex) := by
  cases r with
  | rejected m => right; exact ⟨rfl, rfl⟩
  | notOk status payload => cases payload <;> exact Or.inr ⟨rfl, rfl⟩
  | ok body =>
    cases body with
    | unparseable m => right; exact ⟨rfl, rfl⟩
    | null => left; rfl
    | value book =>
      left
      cases hp : book.pages with
      | none => simp [loadBookFinish, tryCatch, loadBookTry, hp, hideBook, setStatus]
      | some pages =>
        by_cases hN : 1 ≤ pages.length
        · rw [(loadBookFinish_pages w book pages hp hN).2.1]
        · have h0 : pages.length = 0 := by omega
          simp [loadBookFinish, tryCatch, loadBookTry, hp, h0, hideBook, setStatus]

theorem loadRuns_cursor (r : RunsFetch) (net : String → BookFetch) (w : World) :
    (loadRuns r net w).world.state.pageIndex = 0 ∨
    ((loadRuns r net w).world.state.book = w.state.book ∧
     (loadRuns r net w).world.state.pageIndex = w.state.pageIndex) := by
  cases r with
  | rejected m => right; exact ⟨rfl, rfl⟩
  | notOk status => right; exact ⟨rfl, rfl⟩
  | ok body =>
    cases body with
    | unparseable m => right; exact ⟨rfl, rfl⟩
    | null => right; exact ⟨rfl, rfl⟩
    | value payload =>
      cases hruns : payload.runs.getD [] with
      | nil =>
        right
        unfold loadRuns tryCatch loadRunsTry
        simp only [hruns]
        exact ⟨rfl, rfl⟩
      | cons first rest =>
        have hbody : loadRuns (RunsFetch.ok (Parsed.value payload)) net w
            = loadBook first.id (net first.id)
                (setStatus "" (setRunValue first.id (fillRunOptions (first :: rest)
                  { loadRunsStart w with
                    state := { (loadRunsStart w).state with runs := first :: rest } }))) := by
          unfold loadRuns tryCatch loadRunsTry
          simp only [hruns, loadBook_thrown]
        rw [hbody]
        unfold loadBook
        rcases loadBookFinish_cursor (net first.id) (loadBookStart first.id
          (setStatus "" (setRunValue first.id (fillRunOptions (first :: rest)
            { loadRunsStart w with
              state := { (loadRunsStart w).state with runs := first :: rest } })))) with h | ⟨h1, h2⟩
        · left; exact h
        · right
          rw [h1, h2]
          simp [loadBookStart, setStatus, setRunValue, hideBook, (fillRunOptions_frame _ _).1,
            loadRunsStart]

/-- Every listener keeps the cursor inside the loaded book. -/
theorem handle_cursor (e : Event) (w : World) (h : CursorInBounds w.state) :
    CursorInBounds (handle e w).world.state := by
  have reset : ∀ s : ViewerState, s.pageIndex = 0 → CursorInBounds s := by
    intro s hs book pages _ _ hne
    have : 1 ≤ pages.length := List.length_pos.mpr hne
    omega
  have kept : ∀ s : ViewerState, s.book = w.state.book → s.pageIndex = w.state.pageIndex →
      CursorInBounds s := by
    intro s hb hi book pages hb2 hp hne
    rw [hi]
    exact h book pages (hb ▸ hb2) hp hne
  cases e with
  | runsLoaded r net =>
    rcases loadRuns_cursor r net w with h0 | ⟨h1, h2⟩
    · exact reset _ h0
    · exact kept _ h1 h2
  | bookLoaded runId r =>
    rcases loadBookFinish_cursor r (loadBookStart runId w) with h0 | ⟨h1, h2⟩
    · exact reset _ h0
    · exact kept _ h1 h2
  | runChanged runId =>
    show CursorInBounds (onRunChange runId w).world.state
    unfold onRunChange
    split
    · exact h
    · exact h
  | bookRequested runId => exact h
  | bookResponded r =>
    rcases loadBookFinish_cursor r w with h0 | ⟨h1, h2⟩
    · exact reset _ h0
    · exact kept _ h1 h2
  | prevClicked =>
    show CursorInBounds (onPrevClick w).world.state
    unfold onPrevClick
    split
    · exact h
    · rename_i b hb
      split
      · exact h
      · rename_i hpos
        rw [renderPage_state]
        intro book pages hb2 hp hne
        have hh := h book pages hb2 hp hne
        simp only at hpos ⊢
        omega
  | nextClicked =>
    show CursorInBounds (onNextClick w).world.state
    unfold onNextClick
    split
    · exact h
    · rename_i b hb
      split
      · exact h
      · rename_i ps hps
        split
        · exact h
        · rename_i hlt
          rw [renderPage_state]
          intro book pages hb2 hp hne
          have hh := h book pages hb2 hp hne
          have e1 : book = b := by
            have : some book = some b := by rw [← hb2]; exact hb
            exact Option.some.inj this
          subst e1
          have e2 : pages = ps := by
            have : some pages = some ps := by rw [← hp]; exact hps
            exact Option.some.inj this
          subst e2
          simp only at hlt ⊢
          omega

theorem run_cursor (es : List Event) (w : World) (h : CursorInBounds w.state) :
    CursorInBounds (run es w).state := by
  induction es generalizing w with
  | nil => exact h
  | cons e rest ih => exact ih _ (handle_cursor e w h)

/-- C1. In every world reached from the initial state
`{runs: [], book: null, pageIndex: 0}` by any sequence of `loadRuns` calls,
`loadBook` calls (also split into request and response, successful or not),
selector changes and previous/next clicks: whenever a book is loaded and its
page list is non-empty, `0 ≤ pageIndex ≤ len(book.pages) - 1`. -/
theorem cursor_in_bounds (w : World) (es : List Event) (h : w.state = initialState) :
    CursorInBounds (run es w).state := by
  apply run_cursor
  intro book pages hb
  rw [h] at hb
  simp [initialState] at hb

/-- C1 at a concrete input: load a three-page book and click next three times. -/
theorem cursor_in_bounds_witness :
    CursorInBounds (run [Event.bookLoaded "r1" (BookFetch.ok (Parsed.value (sampleBook "T" (some threePages)))),
      Event.nextClicked, Event.nextClicked, Event.nextClicked] startWorld).state :=
  cursor_in_bounds startWorld _ rfl

/-- The response that settles last is the one shown, whichever call was
issued last. -/
theorem overlappingLoads_last_response (w : World) (r1 r2 : String) (b1 b2 : Book)
    (pages1 : List Page) (hp1 : b1.pages = some pages1) (hN1 : 1 ≤ pages1.length) :
    (run (overlappingLoads r1 r2 b1 b2) w).state.book = some b1 ∧
    (run (overlappingLoads r1 r2 b1 b2) w).state.pageIndex = 0 ∧
    (run (overlappingLoads r1 r2 b1 b2) w).dom.bookTitle
      = orElse b1.meta.title_primary "(제목 없음)" ∧
    (run (overlappingLoads r1 r2 b1 b2) w).dom.pageIndicator
      = "1 / " ++ toString pages1.length ∧
    (run (overlappingLoads r1 r2 b1 b2) w).dom.pageViewHidden = false := by
  obtain ⟨_, h2, h3, h4, _, _, h7, _⟩ := loadBookFinish_pages
    (loadBookFinish (BookFetch.ok (Parsed.value b2)) (loadBookStart r2 (loadBookStart r1 w))).world
    b1 pages1 hp1 hN1
  have hrun : run (overlappingLoads r1 r2 b1 b2) w
      = (loadBookFinish (BookFetch.ok (Parsed.value b1))
          (loadBookFinish (BookFetch.ok (Parsed.value b2))
            (loadBookStart r2 (loadBookStart r1 w))).world).world := rfl
  rw [hrun]
  refine ⟨?_, ?_, h4, h3, h7⟩
  · rw [h2]
  · rw [h2]

/-- C5, as the script behaves. For `request(r1), request(r2), response(r2, B2),
response(r1, B1)` with both books non-empty, the final state has `book = B1`
with the cursor at 0 and the page shows B1 (its title, `"1 / N1"`): the
response that arrives last wins; the script carries no request token. -/
theorem overlapping_loads_last_write_wins (w : World) (r1 r2 : String) (b1 b2 : Book)
    (pages1 pages2 : List Page) (hp1 : b1.pages = some pages1) (_hp2 : b2.pages = some pages2)
    (hN1 : 1 ≤ pages1.length) (_hN2 : 1 ≤ pages2.length) :
    (run (overlappingLoads r1 r2 b1 b2) w).state.book = some b1 ∧
    (run (overlappingLoads r1 r2 b1 b2) w).state.pageIndex = 0 ∧
    (run (overlappingLoads r1 r2 b1 b2) w).dom.bookTitle
      = orElse b1.meta.title_primary "(제목 없음)" ∧
    (run (overlappingLoads r1 r2 b1 b2) w).dom.pageIndicator
      = "1 / " ++ toString pages1.length ∧
    (run (overlappingLoads r1 r2 b1 b2) w).dom.pageViewHidden = false :=
  overlappingLoads_last_response w r1 r2 b1 b2 pages1 hp1 hN1

/-- C5 as amended, at a concrete input. -/
theorem overlapping_loads_last_write_wins_witness :
    (run (overlappingLoads "r1" "r2" (onePageBook "first") (onePageBook "second")) startWorld).state.book
      = some (onePageBook "first") :=
  (overlapping_loads_last_write_wins startWorld "r1" "r2" (onePageBook "first") (onePageBook "second")
    [samplePage 1 "first"] [samplePage 1 "second"] rfl rfl (by decide) (by decide)).1

/-- C5 as stated fails: with `r1` answered after `r2`, the final book is not
the one of `r2` and the title shown is not its title. -/
theorem stale_response_wins :
    (run (overlappingLoads "r1" "r2" (onePageBook "first") (onePageBook "second")) startWorld).state.book
      ≠ some (onePageBook "second") ∧
    (run (overlappingLoads "r1" "r2" (onePageBook "first") (onePageBook "second")) startWorld).dom.bookTitle
      ≠ "second" := by
  obtain ⟨h1, _, h3, _, _⟩ := overlappingLoads_last_response startWorld "r1" "r2"
    (onePageBook "first") (onePageBook "second") [samplePage 1 "first"] rfl (by decide)
  rw [h1, h3]
  constructor
  · decide
  · decide

/-- The status of a failed book load whose body is not `null`: the body's
error message when it has a non-empty one, else `HTTP <status>`; the book view
is hidden. -/
theorem loadBook_notOk_status (w : World) (runId : String) (status : Nat)
    (payload : Parsed ErrorPayload) (h : payload ≠ Parsed.null) :
    (loadBook runId (BookFetch.notOk status payload) w).world.dom.statusText
      = "불러오기 실패: " ++ orElse payload.errorField ("HTTP " ++ toString status) ∧
    (loadBook runId (BookFetch.notOk status payload) w).world.dom.bookMetaHidden = true ∧
    (loadBook runId (BookFetch.notOk status payload) w).world.dom.pageViewHidden = true := by
  cases payload with
  | unparseable m =>
    simp [loadBook, loadBookFinish, tryCatch, loadBookTry, loadBookCatch, hideBook, setStatus_eq,
      consoleError, Parsed.errorField]
  | null => exact absurd rfl h
  | value p =>
    simp [loadBook, loadBookFinish, tryCatch, loadBookTry, loadBookCatch, hideBook, setStatus_eq,
      consoleError, Parsed.errorField]

/-- C6 at the input where the script departs from it: status 500 with the
JSON body `null`. Reading `errorPayload.error` throws, so the status carries
the text of that `TypeError` and not `HTTP 500`; the book view is hidden. -/
theorem loadBook_notOk_null_body :
    (loadBook "r2" (BookFetch.notOk 500 Parsed.null) startWorld).world.dom.statusText
      = "불러오기 실패: Cannot read properties of null (reading \x27error\x27)" ∧
    (loadBook "r2" (BookFetch.notOk 500 Parsed.null) startWorld).world.dom.statusText
      ≠ "불러오기 실패: HTTP 500" ∧
    (loadBook "r2" (BookFetch.notOk 500 Parsed.null) startWorld).world.dom.pageViewHidden = true := by
  refine ⟨?_, ?_, ?_⟩
  · decide
  · decide
  · rfl

/-- What holds after a successful `loadBook` whose document has no pages: the
"no page data" status, a hidden view, a previous click that changes nothing,
and, when `pages` is the empty list, a next click that changes nothing. -/
theorem loadBook_empty (w : World) (runId : String) (book : Book)
    (h : book.pages = none ∨ book.pages = some []) :
    (loadBook runId (BookFetch.ok (Parsed.value book)) w).thrown = none ∧
    (loadBook runId (BookFetch.ok (Parsed.value book)) w).world.dom.statusText
      = "페이지 데이터가 없습니다." ∧
    (loadBook runId (BookFetch.ok (Parsed.value book)) w).world.dom.bookMetaHidden = true ∧
    (loadBook runId (BookFetch.ok (Parsed.value book)) w).world.dom.pageViewHidden = true ∧
    onPrevClick (loadBook runId (BookFetch.ok (Parsed.value book)) w).world
      = ⟨(loadBook runId (BookFetch.ok (Parsed.value book)) w).world, none⟩ ∧
    (book.pages = some [] →
      onNextClick (loadBook runId (BookFetch.ok (Parsed.value book)) w).world
        = ⟨(loadBook runId (BookFetch.ok (Parsed.value book)) w).world, none⟩) := by
  rcases h with h | h
  · simp [loadBook, loadBookFinish, tryCatch, loadBookTry, h, hideBook, setStatus, orElse,
      onPrevClick, loadBookStart]
  · simp [loadBook, loadBookFinish, tryCatch, loadBookTry, h, hideBook, setStatus, orElse,
      onPrevClick, onNextClick, loadBookStart]

/-- C10 at the input where the script departs from it: a document without
`pages`. The load ends with the "no page data" status and a hidden view, and a
previous click changes nothing, but a next click reads `.length` of the absent
`pages` and throws out of the listener. -/
theorem next_click_without_pages_throws :
    (loadBook "r1" (BookFetch.ok (Parsed.value (sampleBook "T" none))) startWorld).world.dom.statusText
      = "페이지 데이터가 없습니다." ∧
    (loadBook "r1" (BookFetch.ok (Parsed.value (sampleBook "T" none))) startWorld).world.dom.pageViewHidden
      = true ∧
    (onPrevClick (loadBook "r1" (BookFetch.ok (Parsed.value (sampleBook "T" none))) startWorld).world).thrown
      = none ∧
    (onNextClick (loadBook "r1" (BookFetch.ok (Parsed.value (sampleBook "T" none))) startWorld).world).thrown
      = some "Cannot read properties of undefined (reading \x27length\x27)" := by
  refine ⟨?_, ?_, ?_, ?_⟩
  · decide
  · rfl
  · rfl
  · decide

end Viewer
